import Mathlib

/-!
# threads.h : the portable threads layer of the VideoLAN client

A shallow embedding of `src/include/threads.h`.  The header is one body of
code per native backend, selected by the preprocessor; each backend is
embedded in its own namespace and every function keeps its source name.

Modelling conventions.

* A C pointer argument that the code tests against `NULL` is an `Option`
  (`none` is `NULL`).  A pointer the code dereferences without a test is
  taken to be valid and the function works on the pointed-to value.
* Calls into the operating system are not part of the repository.  Their
  results are supplied by an oracle (`Kernel`), and every call a function
  makes is recorded, in program order, in an event trace together with the
  arguments it was made with and the result the oracle gave.
* The numeric values of system-header constants (`B_OK`, `B_NO_INIT`,
  `EALREADY` ...) are not in the repository either; they are the fields of
  a parameter `Consts`.
* Machine integers (`int32`, `status_t`, `sem_id`, `thread_id`) are `Int`;
  no arithmetic is performed on them, only comparisons and stores.
* Each function is embedded as one sequential execution: the fields of a
  handle are not modified by other threads while the function runs.
-/

namespace Threads

/-! ## Constants (threads.h, lines 61-77) -/

def THREAD_NOP : Int := 0
def THREAD_CREATE : Int := 10
def THREAD_START : Int := 11
def THREAD_READY : Int := 19
def THREAD_DESTROY : Int := 20
def THREAD_END : Int := 21
def THREAD_OVER : Int := 29
def THREAD_ERROR : Int := 30
def THREAD_FATAL : Int := 31

/-- The nine status codes, in the order the header defines them. -/
def statusCodes : List Int :=
  [THREAD_NOP, THREAD_CREATE, THREAD_START, THREAD_READY, THREAD_DESTROY,
   THREAD_END, THREAD_OVER, THREAD_ERROR, THREAD_FATAL]

/-- The codes of the "Creation status" group of the header. -/
def creationCodes : List Int := [THREAD_CREATE, THREAD_START, THREAD_READY]

/-- The codes of the "Destructions status" group of the header. -/
def destructionCodes : List Int := [THREAD_DESTROY, THREAD_END, THREAD_OVER]

/-- The codes of the "Error status" group of the header. -/
def errorCodes : List Int := [THREAD_ERROR, THREAD_FATAL]

/-! ## BeOS backend (`HAVE_KERNEL_SCHEDULER_H`) -/

namespace BeOS

/-- Values of the BeOS system-header constants the code refers to. -/
structure Consts where
  B_OK : Int
  B_NO_ERROR : Int
  B_BAD_VALUE : Int
  B_NO_INIT : Int
  EALREADY : Int
  B_THREAD_SUSPENDED : Int
  deriving DecidableEq, Repr

/-- A sample assignment of the constants, laid out as in the BeOS headers
(general errors from `LONG_MIN`, POSIX errors from `LONG_MIN + 0x7000`). -/
def sampleConsts : Consts where
  B_OK := 0
  B_NO_ERROR := 0
  B_BAD_VALUE := -2147483643
  B_NO_INIT := -2147483635
  EALREADY := -2147454939
  B_THREAD_SUSPENDED := 5

/-- The type `vlc_mutex_t` (lines 120-124). -/
structure vlc_mutex_t where
  init : Int
  lock : Int
  deriving DecidableEq, Repr

/-- The type `vlc_cond_t` (lines 126-130). -/
structure vlc_cond_t where
  init : Int
  thread : Int
  deriving DecidableEq, Repr

/-- One call into the BeOS kernel, with its arguments and its result.  The
name argument of `create_sem` and `spawn_thread` and the fixed priority and
entry point passed to `spawn_thread` carry no information and are left out;
`get_thread_info` records the `state` field of the record it filled. -/
inductive Event where
  | create_sem (count : Int) (ret : Int)
  | delete_sem (sem : Int)
  | acquire_sem (sem : Int) (ret : Int)
  | release_sem (sem : Int) (ret : Int)
  | find_thread (ret : Int)
  | suspend_thread (thread : Int) (ret : Int)
  | resume_thread (thread : Int) (ret : Int)
  | get_thread_info (thread : Int) (status : Int) (state : Int)
  | snooze (microseconds : Int)
  | spawn_thread (ret : Int)
  deriving DecidableEq, Repr

/-- The results the kernel gives to the calls of one operation. -/
structure Kernel where
  create_sem : Int
  acquire_sem : Int → Int
  release_sem : Int → Int
  find_thread : Int
  suspend_thread : Int → Int
  resume_thread : Int → Int
  spawn_thread : Int

/-- One answer of `get_thread_info`: its return value and what the code then
reads in the `state` field of its `thread_info` record.  The record is a
local variable without initialiser, so after a call that filled nothing the
field holds an arbitrary value. -/
structure ThreadInfo where
  status : Int
  state : Int
  deriving DecidableEq, Repr

/-- Outcome of an operation: the returned `int`, the handle as the operation
leaves it, and the kernel calls made. -/
structure Ret (σ : Type) where
  value : Int
  state : σ
  trace : List Event

/-- Outcome of `vlc_cond_signal`, whose polling loop may still be running
when the supplied answers of `get_thread_info` are used up (`value = none`). -/
structure LoopRet (σ : Type) where
  value : Option Int
  state : σ
  trace : List Event

/-- `vlc_thread_create`, lines 184-187; `state` is the value stored in
`*p_thread`. -/
def vlc_thread_create (k : Kernel) : Ret Int :=
  let p_thread := k.spawn_thread
  { value := k.resume_thread p_thread
    state := p_thread
    trace := [Event.spawn_thread k.spawn_thread,
              Event.resume_thread p_thread (k.resume_thread p_thread)] }

/-- `vlc_mutex_init`, lines 277-297. -/
def vlc_mutex_init (c : Consts) (k : Kernel) (p_mutex : Option vlc_mutex_t) :
    Ret (Option vlc_mutex_t) :=
  match p_mutex with
  | none => { value := c.B_BAD_VALUE, state := none, trace := [] }
  | some m =>
    if m.init = 9999 then
      { value := c.EALREADY, state := some m, trace := [] }
    else
      let m1 : vlc_mutex_t := { m with lock := k.create_sem }
      if m1.lock < c.B_NO_ERROR then
        { value := -1, state := some m1, trace := [Event.create_sem 1 k.create_sem] }
      else
        { value := c.B_OK, state := some { m1 with init := 9999 },
          trace := [Event.create_sem 1 k.create_sem] }

/-- `vlc_mutex_lock`, lines 321-335. -/
def vlc_mutex_lock (c : Consts) (k : Kernel) (p_mutex : Option vlc_mutex_t) :
    Ret (Option vlc_mutex_t) :=
  match p_mutex with
  | none => { value := c.B_BAD_VALUE, state := none, trace := [] }
  | some m =>
    if m.init < 2000 then
      { value := c.B_NO_INIT, state := some m, trace := [] }
    else
      let err := k.acquire_sem m.lock
      { value := err, state := some m, trace := [Event.acquire_sem m.lock err] }

/-- `vlc_mutex_unlock`, lines 359-371. -/
def vlc_mutex_unlock (c : Consts) (k : Kernel) (p_mutex : Option vlc_mutex_t) :
    Ret (Option vlc_mutex_t) :=
  match p_mutex with
  | none => { value := c.B_BAD_VALUE, state := none, trace := [] }
  | some m =>
    if m.init < 2000 then
      { value := c.B_NO_INIT, state := some m, trace := [] }
    else
      { value := c.B_OK, state := some m,
        trace := [Event.release_sem m.lock (k.release_sem m.lock)] }

/-- `vlc_mutex_destroy`, lines 391-398; the pointer is dereferenced without
a test. -/
def vlc_mutex_destroy (c : Consts) (m : vlc_mutex_t) : Ret vlc_mutex_t :=
  { value := c.B_OK
    state := { m with init := 0 }
    trace := if m.init = 9999 then [Event.delete_sem m.lock] else [] }

/-- `vlc_cond_init`, lines 427-440. -/
def vlc_cond_init (c : Consts) (p_condvar : Option vlc_cond_t) :
    Ret (Option vlc_cond_t) :=
  match p_condvar with
  | none => { value := c.B_BAD_VALUE, state := none, trace := [] }
  | some cv =>
    if cv.init = 9999 then
      { value := c.EALREADY, state := some cv, trace := [] }
    else
      { value := 0, state := some { init := 9999, thread := -1 }, trace := [] }

/-- The `while( p_condvar->thread != -1 )` loop of `vlc_cond_signal`, lines
484-507.  Each iteration consumes one answer of `get_thread_info`; with no
answer left the loop is still running and the value is `none`. -/
def signal_loop (c : Consts) (k : Kernel) (thread : Int) :
    List ThreadInfo → Option Int × List Event
  | [] => if thread ≠ -1 then (none, []) else (some 0, [])
  | info :: rest =>
    if thread ≠ -1 then
      if info.status = c.B_BAD_VALUE then
        (some 0, [Event.get_thread_info thread info.status info.state])
      else if info.state ≠ c.B_THREAD_SUSPENDED then
        let r := signal_loop c k thread rest
        (r.1, Event.get_thread_info thread info.status info.state
                :: Event.snooze 10000 :: r.2)
      else
        (some 0, [Event.get_thread_info thread info.status info.state,
                  Event.resume_thread thread (k.resume_thread thread)])
    else (some 0, [])

/-- `vlc_cond_signal`, lines 473-507. -/
def vlc_cond_signal (c : Consts) (k : Kernel) (answers : List ThreadInfo)
    (p_condvar : Option vlc_cond_t) : LoopRet (Option vlc_cond_t) :=
  match p_condvar with
  | none => { value := some c.B_BAD_VALUE, state := none, trace := [] }
  | some cv =>
    if cv.init < 2000 then
      { value := some c.B_NO_INIT, state := some cv, trace := [] }
    else
      let r := signal_loop c k cv.thread answers
      { value := r.1, state := some cv, trace := r.2 }

/-- `vlc_cond_wait`, lines 532-557.  The results of `vlc_mutex_unlock`,
`suspend_thread` and `vlc_mutex_lock` are discarded by the code. -/
def vlc_cond_wait (c : Consts) (k : Kernel) (p_condvar : Option vlc_cond_t)
    (p_mutex : Option vlc_mutex_t) : Ret (Option vlc_cond_t) :=
  match p_condvar with
  | none => { value := c.B_BAD_VALUE, state := none, trace := [] }
  | some cv =>
    match p_mutex with
    | none => { value := c.B_BAD_VALUE, state := some cv, trace := [] }
    | some m =>
      if cv.init < 2000 then
        { value := c.B_NO_INIT, state := some cv, trace := [] }
      else
        let cv1 : vlc_cond_t := { cv with thread := k.find_thread }
        let u := vlc_mutex_unlock c k (some m)
        let s := Event.suspend_thread cv1.thread (k.suspend_thread cv1.thread)
        let cv2 : vlc_cond_t := { cv1 with thread := -1 }
        let l := vlc_mutex_lock c k (some m)
        { value := 0, state := some cv2,
          trace := Event.find_thread k.find_thread :: u.trace ++ s :: l.trace }

/-- `vlc_cond_destroy`, lines 585-587; the pointer is dereferenced without
a test. -/
def vlc_cond_destroy (cv : vlc_cond_t) : Ret vlc_cond_t :=
  { value := 0, state := { cv with init := 0 }, trace := [] }

/-- A kernel whose every call succeeds: statuses are `0`, the semaphore
created has id `7`, the calling thread has id `42`, the spawned one `43`. -/
def sampleKernel : Kernel where
  create_sem := 7
  acquire_sem := fun _ => 0
  release_sem := fun _ => 0
  find_thread := 42
  suspend_thread := fun _ => 0
  resume_thread := fun _ => 0
  spawn_thread := 43

/-- A kernel as `sampleKernel`, except that `acquire_sem` is interrupted
(`B_INTERRUPTED` in the layout of `sampleConsts`). -/
def interruptedKernel : Kernel :=
  { sampleKernel with acquire_sem := fun _ => -2147483638 }

/-- A kernel whose every call fails: no semaphore is created, semaphore
calls report `B_BAD_SEM_ID` and thread calls `B_BAD_THREAD_ID`, written as
arbitrary negative statuses. -/
def failingKernel : Kernel where
  create_sem := -2147483648
  acquire_sem := fun _ => -2147479296
  release_sem := fun _ => -2147479296
  find_thread := 42
  suspend_thread := fun _ => -2147479040
  resume_thread := fun _ => -2147479040
  spawn_thread := -2147479038

/-- Whether the calling thread owns the semaphore `sem` after the kernel
calls of `trace`, given whether it owned it before: a successful
`acquire_sem` gives ownership, a successful `release_sem` gives it up, a
failed call changes nothing. -/
def holdsAfter (c : Consts) (sem : Int) : Bool → List Event → Bool
  | held, [] => held
  | held, Event.acquire_sem s r :: es =>
    holdsAfter c sem (if s = sem ∧ r = c.B_NO_ERROR then true else held) es
  | held, Event.release_sem s r :: es =>
    holdsAfter c sem (if s = sem ∧ r = c.B_NO_ERROR then false else held) es
  | held, _ :: es => holdsAfter c sem held es

end BeOS

/-! ## Win32 backend (`WIN32`) -/

namespace Win32

/-- What `WaitForSingleObject` reports (`WAIT_OBJECT_0`, `WAIT_ABANDONED`,
`WAIT_TIMEOUT`, `WAIT_FAILED`); the code never inspects the value. -/
inductive WaitResult where
  | object_0
  | abandoned
  | timeout
  | failed
  deriving DecidableEq, Repr

/-- One call into the Win32 API, with its arguments and its result; a
`HANDLE` is a number and `0` is the null handle, a `BOOL` is a `Bool`. -/
inductive Event where
  | beginthreadex (ret : Nat)
  | CreateMutex (ret : Nat)
  | WaitForSingleObject (handle : Nat) (ret : WaitResult)
  | ReleaseMutex (handle : Nat) (ret : Bool)
  deriving DecidableEq, Repr

/-- The results the system gives to the calls of one operation. -/
structure Kernel where
  beginthreadex : Nat
  CreateMutex : Nat
  WaitForSingleObject : Nat → WaitResult
  ReleaseMutex : Nat → Bool

/-- Outcome of an operation: the returned `int`, the handle as the operation
leaves it, and the system calls made. -/
structure Ret where
  value : Int
  state : Nat
  trace : List Event

/-- `vlc_thread_create`, lines 197-204; `state` is the value stored in
`*p_thread`. -/
def vlc_thread_create (k : Kernel) : Ret :=
  let p_thread := k.beginthreadex
  { value := if p_thread ≠ 0 then 0 else 1
    state := p_thread
    trace := [Event.beginthreadex k.beginthreadex] }

/-- `vlc_mutex_init`, lines 300-301; `state` is the value stored in
`*p_mutex`. -/
def vlc_mutex_init (k : Kernel) : Ret :=
  let p_mutex := k.CreateMutex
  { value := if p_mutex ≠ 0 then 0 else 1
    state := p_mutex
    trace := [Event.CreateMutex k.CreateMutex] }

/-- `vlc_mutex_lock`, lines 338-339. -/
def vlc_mutex_lock (k : Kernel) (p_mutex : Nat) : Ret :=
  { value := 0, state := p_mutex,
    trace := [Event.WaitForSingleObject p_mutex (k.WaitForSingleObject p_mutex)] }

/-- `vlc_mutex_unlock`, lines 374-375. -/
def vlc_mutex_unlock (k : Kernel) (p_mutex : Nat) : Ret :=
  { value := 0, state := p_mutex,
    trace := [Event.ReleaseMutex p_mutex (k.ReleaseMutex p_mutex)] }

/-- `vlc_cond_wait`, lines 563-569. -/
def vlc_cond_wait (k : Kernel) (p_condvar : Nat) (p_mutex : Nat) : Ret :=
  let u := vlc_mutex_unlock k p_mutex
  let w := Event.WaitForSingleObject p_condvar (k.WaitForSingleObject p_condvar)
  let l := vlc_mutex_lock k p_mutex
  { value := 0, state := p_condvar, trace := u.trace ++ w :: l.trace }

/-- A system whose every call fails: creations yield the null handle, waits
report `WAIT_FAILED`, `ReleaseMutex` reports `FALSE`. -/
def failingKernel : Kernel where
  beginthreadex := 0
  CreateMutex := 0
  WaitForSingleObject := fun _ => WaitResult.failed
  ReleaseMutex := fun _ => false

/-- A system whose every call succeeds, with handle `8` for what it creates. -/
def sampleKernel : Kernel where
  beginthreadex := 8
  CreateMutex := 8
  WaitForSingleObject := fun _ => WaitResult.object_0
  ReleaseMutex := fun _ => true

/-- Whether a wait on a mutex handle ended with the caller owning it. -/
def WaitResult.acquired : WaitResult → Bool
  | WaitResult.object_0 => true
  | WaitResult.abandoned => true
  | _ => false

/-- Whether the calling thread owns the mutex `h` after the system calls of
`trace`, given whether it owned it before: a wait on `h` that ends with
`WAIT_OBJECT_0` or `WAIT_ABANDONED` gives ownership, a successful
`ReleaseMutex` gives it up, a failed call changes nothing. -/
def holdsAfter (h : Nat) : Bool → List Event → Bool
  | held, [] => held
  | held, Event.WaitForSingleObject s r :: es =>
    holdsAfter h (if s = h ∧ r.acquired = true then true else held) es
  | held, Event.ReleaseMutex s ok :: es =>
    holdsAfter h (if s = h ∧ ok = true then false else held) es
  | held, _ :: es => holdsAfter h held es

end Win32

/-! ## GNU Pth backend (`PTH_INIT_IN_PTH_H`) -/

namespace Pth

/-- `vlc_thread_create`, lines 174-175.  `p_thread` is the pointer argument
(`none` is `NULL`) and `pth_spawn` the handle the native call yields (`0` is
the null handle).  The store `*p_thread = ...` needs a valid pointer, so a
null pointer gives no result; the return value is the comparison of the
pointer itself with `NULL`.  The result is the returned `int` and the value
stored in `*p_thread`. -/
def vlc_thread_create (pth_spawn : Nat) (p_thread : Option Nat) : Option (Int × Nat) :=
  match p_thread with
  | none => none
  | some _ => some ((if p_thread = none then 1 else 0), pth_spawn)

end Pth

/-! ## POSIX threads backend (`PTHREAD_COND_T_IN_PTHREAD_H`) -/

namespace Pthreads

/-- `vlc_thread_create`, line 178.  `pthread_create` is the error number the
native call returns and `thread` the handle it writes to `*p_thread`.  The
result is the returned `int` and the value stored in `*p_thread`. -/
def vlc_thread_create (pthread_create : Int) (thread : Nat) : Int × Nat :=
  (pthread_create, thread)

end Pthreads

/-! ## GNU Mach cthreads backend (`HAVE_CTHREADS_H`) -/

namespace Cthreads

/-- `vlc_thread_create`, lines 181-182.  `cthread_fork` is the handle the
native call yields (`0` is the null handle).  The result is the returned
`int` and the value stored in `*p_thread`. -/
def vlc_thread_create (cthread_fork : Nat) : Int × Nat :=
  (0, cthread_fork)

end Cthreads

/-! ## The lifecycle status codes -/

/-- C8: the nine status codes are strictly increasing in the documented
order (hence pairwise distinct), and among them the creation codes are
exactly those in 10..19, the destruction codes exactly those in 20..29, the
error codes exactly those from 30 on, and NOP is the only one below 10. -/
theorem status_codes_ordered_and_grouped :
    List.Pairwise (fun a b => a < b) statusCodes ∧
    statusCodes.Nodup ∧
    statusCodes = [THREAD_NOP, THREAD_CREATE, THREAD_START, THREAD_READY,
      THREAD_DESTROY, THREAD_END, THREAD_OVER, THREAD_ERROR, THREAD_FATAL] ∧
    (∀ x ∈ statusCodes, x ∈ creationCodes ↔ 10 ≤ x ∧ x ≤ 19) ∧
    (∀ x ∈ statusCodes, x ∈ destructionCodes ↔ 20 ≤ x ∧ x ≤ 29) ∧
    (∀ x ∈ statusCodes, x ∈ errorCodes ↔ 30 ≤ x) ∧
    (∀ x ∈ statusCodes, x < 10 ↔ x = THREAD_NOP) := by
  refine ⟨by decide, by decide, rfl, ?_, ?_, ?_, ?_⟩ <;> decide

/-! ## BeOS: initialisation markers -/

/-- C1: on a mutex or condition variable whose init marker is 9999, a second
`vlc_mutex_init` / `vlc_cond_init` returns `EALREADY`, makes no kernel call
(in particular no `create_sem`) and leaves the handle as it was. -/
theorem double_init_rejected (c : BeOS.Consts) (k : BeOS.Kernel)
    (m : BeOS.vlc_mutex_t) (cv : BeOS.vlc_cond_t)
    (hm : m.init = 9999) (hcv : cv.init = 9999) :
    ((BeOS.vlc_mutex_init c k (some m)).value = c.EALREADY ∧
     (BeOS.vlc_mutex_init c k (some m)).trace = [] ∧
     (BeOS.vlc_mutex_init c k (some m)).state = some m) ∧
    ((BeOS.vlc_cond_init c (some cv)).value = c.EALREADY ∧
     (BeOS.vlc_cond_init c (some cv)).trace = [] ∧
     (BeOS.vlc_cond_init c (some cv)).state = some cv) := by
  simp [BeOS.vlc_mutex_init, BeOS.vlc_cond_init, hm, hcv]

theorem double_init_rejected_witness :
    ((BeOS.vlc_mutex_init BeOS.sampleConsts BeOS.sampleKernel (some ⟨9999, 7⟩)).value
        = BeOS.sampleConsts.EALREADY ∧
     (BeOS.vlc_mutex_init BeOS.sampleConsts BeOS.sampleKernel (some ⟨9999, 7⟩)).trace = [] ∧
     (BeOS.vlc_mutex_init BeOS.sampleConsts BeOS.sampleKernel (some ⟨9999, 7⟩)).state
        = some ⟨9999, 7⟩) ∧
    ((BeOS.vlc_cond_init BeOS.sampleConsts (some ⟨9999, -1⟩)).value
        = BeOS.sampleConsts.EALREADY ∧
     (BeOS.vlc_cond_init BeOS.sampleConsts (some ⟨9999, -1⟩)).trace = [] ∧
     (BeOS.vlc_cond_init BeOS.sampleConsts (some ⟨9999, -1⟩)).state = some ⟨9999, -1⟩) :=
  double_init_rejected BeOS.sampleConsts BeOS.sampleKernel ⟨9999, 7⟩ ⟨9999, -1⟩ rfl rfl

/-- C2 fails as stated: a mutex whose init marker is 5000 (not the marker
9999 of an initialised handle) is not rejected by `vlc_mutex_lock`; the call
reaches `acquire_sem` and returns its status, here 0, not `B_NO_INIT`. -/
theorem lock_with_marker_5000_reaches_acquire_sem :
    (⟨5000, 7⟩ : BeOS.vlc_mutex_t).init ≠ 9999 ∧
    (BeOS.vlc_mutex_lock BeOS.sampleConsts BeOS.sampleKernel (some ⟨5000, 7⟩)).trace
      = [BeOS.Event.acquire_sem 7 0] ∧
    (BeOS.vlc_mutex_lock BeOS.sampleConsts BeOS.sampleKernel (some ⟨5000, 7⟩)).value = 0 ∧
    (BeOS.vlc_mutex_lock BeOS.sampleConsts BeOS.sampleKernel (some ⟨5000, 7⟩)).value
      ≠ BeOS.sampleConsts.B_NO_INIT := by
  decide

/-- C2, amended: on a non-null mutex or condition variable whose init marker
is below 2000, `vlc_mutex_lock`, `vlc_mutex_unlock`, `vlc_cond_signal` and
`vlc_cond_wait` (given a non-null mutex) return `B_NO_INIT`, make no kernel
call and leave the handle as it was. -/
theorem marker_below_2000_is_not_initialised (c : BeOS.Consts) (k : BeOS.Kernel)
    (answers : List BeOS.ThreadInfo) (m mx : BeOS.vlc_mutex_t) (cv : BeOS.vlc_cond_t)
    (hm : m.init < 2000) (hcv : cv.init < 2000) :
    ((BeOS.vlc_mutex_lock c k (some m)).value = c.B_NO_INIT ∧
     (BeOS.vlc_mutex_lock c k (some m)).trace = [] ∧
     (BeOS.vlc_mutex_lock c k (some m)).state = some m) ∧
    ((BeOS.vlc_mutex_unlock c k (some m)).value = c.B_NO_INIT ∧
     (BeOS.vlc_mutex_unlock c k (some m)).trace = [] ∧
     (BeOS.vlc_mutex_unlock c k (some m)).state = some m) ∧
    ((BeOS.vlc_cond_signal c k answers (some cv)).value = some c.B_NO_INIT ∧
     (BeOS.vlc_cond_signal c k answers (some cv)).trace = [] ∧
     (BeOS.vlc_cond_signal c k answers (some cv)).state = some cv) ∧
    ((BeOS.vlc_cond_wait c k (some cv) (some mx)).value = c.B_NO_INIT ∧
     (BeOS.vlc_cond_wait c k (some cv) (some mx)).trace = [] ∧
     (BeOS.vlc_cond_wait c k (some cv) (some mx)).state = some cv) := by
  simp [BeOS.vlc_mutex_lock, BeOS.vlc_mutex_unlock, BeOS.vlc_cond_signal,
    BeOS.vlc_cond_wait, hm, hcv]

theorem marker_below_2000_is_not_initialised_witness :
    ((BeOS.vlc_mutex_lock BeOS.sampleConsts BeOS.sampleKernel (some ⟨0, 7⟩)).value
        = BeOS.sampleConsts.B_NO_INIT ∧
     (BeOS.vlc_mutex_lock BeOS.sampleConsts BeOS.sampleKernel (some ⟨0, 7⟩)).trace = [] ∧
     (BeOS.vlc_mutex_lock BeOS.sampleConsts BeOS.sampleKernel (some ⟨0, 7⟩)).state
        = some ⟨0, 7⟩) ∧
    ((BeOS.vlc_mutex_unlock BeOS.sampleConsts BeOS.sampleKernel (some ⟨0, 7⟩)).value
        = BeOS.sampleConsts.B_NO_INIT ∧
     (BeOS.vlc_mutex_unlock BeOS.sampleConsts BeOS.sampleKernel (some ⟨0, 7⟩)).trace = [] ∧
     (BeOS.vlc_mutex_unlock BeOS.sampleConsts BeOS.sampleKernel (some ⟨0, 7⟩)).state
        = some ⟨0, 7⟩) ∧
    ((BeOS.vlc_cond_signal BeOS.sampleConsts BeOS.sampleKernel [⟨0, 5⟩] (some ⟨1999, 42⟩)).value
        = some BeOS.sampleConsts.B_NO_INIT ∧
     (BeOS.vlc_cond_signal BeOS.sampleConsts BeOS.sampleKernel [⟨0, 5⟩] (some ⟨1999, 42⟩)).trace
        = [] ∧
     (BeOS.vlc_cond_signal BeOS.sampleConsts BeOS.sampleKernel [⟨0, 5⟩] (some ⟨1999, 42⟩)).state
        = some ⟨1999, 42⟩) ∧
    ((BeOS.vlc_cond_wait BeOS.sampleConsts BeOS.sampleKernel (some ⟨1999, 42⟩)
        (some ⟨9999, 7⟩)).value = BeOS.sampleConsts.B_NO_INIT ∧
     (BeOS.vlc_cond_wait BeOS.sampleConsts BeOS.sampleKernel (some ⟨1999, 42⟩)
        (some ⟨9999, 7⟩)).trace = [] ∧
     (BeOS.vlc_cond_wait BeOS.sampleConsts BeOS.sampleKernel (some ⟨1999, 42⟩)
        (some ⟨9999, 7⟩)).state = some ⟨1999, 42⟩) :=
  marker_below_2000_is_not_initialised BeOS.sampleConsts BeOS.sampleKernel [⟨0, 5⟩]
    ⟨0, 7⟩ ⟨9999, 7⟩ ⟨1999, 42⟩ (by decide) (by decide)

/-! ## Thread creation -/

/-- C3 fails as stated: on the cthreads backend a fork that yields the null
handle is stored and `vlc_thread_create` still returns 0. -/
theorem cthreads_create_returns_zero_on_null_handle :
    (Cthreads.vlc_thread_create 0).2 = 0 ∧ (Cthreads.vlc_thread_create 0).1 = 0 := by
  decide

/-- C3, amended: on pthreads `vlc_thread_create` returns the error number of
`pthread_create`; on Win32 it returns 0 when `_beginthreadex` yields a
non-null handle and 1 when it yields the null handle; on BeOS it calls
`spawn_thread`, then `resume_thread` on the id obtained, and returns the
status of that `resume_thread`; on cthreads it returns 0 whatever handle
`cthread_fork` yields.  Each backend stores the native handle. -/
theorem thread_create_result_per_backend :
    (∀ (err : Int) (h : Nat),
      Pthreads.vlc_thread_create err h = (err, h)) ∧
    (∀ k : Win32.Kernel,
      ((Win32.vlc_thread_create k).value = 0 ↔ k.beginthreadex ≠ 0) ∧
      ((Win32.vlc_thread_create k).value = 1 ↔ k.beginthreadex = 0) ∧
      (Win32.vlc_thread_create k).state = k.beginthreadex) ∧
    (∀ k : BeOS.Kernel,
      (BeOS.vlc_thread_create k).value = k.resume_thread k.spawn_thread ∧
      (BeOS.vlc_thread_create k).state = k.spawn_thread ∧
      (BeOS.vlc_thread_create k).trace
        = [BeOS.Event.spawn_thread k.spawn_thread,
           BeOS.Event.resume_thread k.spawn_thread (k.resume_thread k.spawn_thread)]) ∧
    (∀ h : Nat, Cthreads.vlc_thread_create h = (0, h)) := by
  refine ⟨fun _ _ => rfl, fun k => ?_, fun k => ⟨rfl, rfl, rfl⟩, fun _ => rfl⟩
  by_cases h : k.beginthreadex = 0 <;> simp [Win32.vlc_thread_create, h]

/-- On the GNU Pth backend the value returned is the comparison of the
pointer `p_thread` with `NULL`, not of the handle stored through it: with a
valid pointer the result is 0 whatever `pth_spawn` yields. -/
theorem pth_create_compares_the_pointer (pth_spawn old : Nat) :
    Pth.vlc_thread_create pth_spawn (some old) = some (0, pth_spawn) := by
  simp [Pth.vlc_thread_create]

/-! ## Results of native calls -/

/-- C4 fails as stated: on Win32 a `WaitForSingleObject` that reports
`WAIT_FAILED` does not stop `vlc_mutex_lock` from returning 0. -/
theorem win32_lock_returns_zero_after_failed_wait :
    (Win32.vlc_mutex_lock Win32.failingKernel 8).trace
      = [Win32.Event.WaitForSingleObject 8 Win32.WaitResult.failed] ∧
    (Win32.vlc_mutex_lock Win32.failingKernel 8).value = 0 := by
  decide

/-- C4, amended: a failed native call is reported by `vlc_mutex_init` (BeOS:
-1 when `create_sem` yields an id below `B_NO_ERROR`; Win32: 1 when
`CreateMutex` yields the null handle) and by the BeOS `vlc_mutex_lock`,
which returns the status of `acquire_sem`.  The BeOS `vlc_mutex_unlock`
returns `B_OK` whatever `release_sem` reports, and the Win32
`vlc_mutex_lock` and `vlc_mutex_unlock` and both versions of `vlc_cond_wait`
return 0 whatever their native calls report. -/
theorem native_results_checked_or_discarded (c : BeOS.Consts) (k : BeOS.Kernel)
    (fresh m : BeOS.vlc_mutex_t) (cv : BeOS.vlc_cond_t) (w : Win32.Kernel)
    (hmutex hcond : Nat)
    (hfresh : fresh.init ≠ 9999) (hm : m.init = 9999) (hcv : cv.init = 9999) :
    (k.create_sem < c.B_NO_ERROR →
      (BeOS.vlc_mutex_init c k (some fresh)).value = -1 ∧
      (BeOS.vlc_mutex_init c k (some fresh)).value ≠ 0) ∧
    ((BeOS.vlc_mutex_lock c k (some m)).value = k.acquire_sem m.lock ∧
     (BeOS.vlc_mutex_lock c k (some m)).trace
       = [BeOS.Event.acquire_sem m.lock (k.acquire_sem m.lock)]) ∧
    ((BeOS.vlc_mutex_unlock c k (some m)).value = c.B_OK ∧
     (BeOS.vlc_mutex_unlock c k (some m)).trace
       = [BeOS.Event.release_sem m.lock (k.release_sem m.lock)]) ∧
    (BeOS.vlc_cond_wait c k (some cv) (some m)).value = 0 ∧
    (w.CreateMutex = 0 →
      (Win32.vlc_mutex_init w).value = 1 ∧ (Win32.vlc_mutex_init w).value ≠ 0) ∧
    ((Win32.vlc_mutex_lock w hmutex).value = 0 ∧
     (Win32.vlc_mutex_lock w hmutex).trace
       = [Win32.Event.WaitForSingleObject hmutex (w.WaitForSingleObject hmutex)]) ∧
    ((Win32.vlc_mutex_unlock w hmutex).value = 0 ∧
     (Win32.vlc_mutex_unlock w hmutex).trace
       = [Win32.Event.ReleaseMutex hmutex (w.ReleaseMutex hmutex)]) ∧
    (Win32.vlc_cond_wait w hcond hmutex).value = 0 := by
  refine ⟨?_, ?_, ?_, ?_, ?_, ⟨rfl, rfl⟩, ⟨rfl, rfl⟩, rfl⟩
  · intro h
    simp [BeOS.vlc_mutex_init, hfresh, h]
  · simp [BeOS.vlc_mutex_lock, hm]
  · simp [BeOS.vlc_mutex_unlock, hm]
  · simp [BeOS.vlc_cond_wait, hcv]
  · intro h
    simp [Win32.vlc_mutex_init, h]

theorem native_results_checked_or_discarded_witness :
    (BeOS.failingKernel.create_sem < BeOS.sampleConsts.B_NO_ERROR →
      (BeOS.vlc_mutex_init BeOS.sampleConsts BeOS.failingKernel (some ⟨0, 0⟩)).value = -1 ∧
      (BeOS.vlc_mutex_init BeOS.sampleConsts BeOS.failingKernel (some ⟨0, 0⟩)).value ≠ 0) ∧
    ((BeOS.vlc_mutex_lock BeOS.sampleConsts BeOS.failingKernel (some ⟨9999, 7⟩)).value
        = BeOS.failingKernel.acquire_sem (⟨9999, 7⟩ : BeOS.vlc_mutex_t).lock ∧
     (BeOS.vlc_mutex_lock BeOS.sampleConsts BeOS.failingKernel (some ⟨9999, 7⟩)).trace
       = [BeOS.Event.acquire_sem (⟨9999, 7⟩ : BeOS.vlc_mutex_t).lock
           (BeOS.failingKernel.acquire_sem (⟨9999, 7⟩ : BeOS.vlc_mutex_t).lock)]) ∧
    ((BeOS.vlc_mutex_unlock BeOS.sampleConsts BeOS.failingKernel (some ⟨9999, 7⟩)).value
        = BeOS.sampleConsts.B_OK ∧
     (BeOS.vlc_mutex_unlock BeOS.sampleConsts BeOS.failingKernel (some ⟨9999, 7⟩)).trace
       = [BeOS.Event.release_sem (⟨9999, 7⟩ : BeOS.vlc_mutex_t).lock
           (BeOS.failingKernel.release_sem (⟨9999, 7⟩ : BeOS.vlc_mutex_t).lock)]) ∧
    (BeOS.vlc_cond_wait BeOS.sampleConsts BeOS.failingKernel (some ⟨9999, -1⟩)
      (some ⟨9999, 7⟩)).value = 0 ∧
    (Win32.failingKernel.CreateMutex = 0 →
      (Win32.vlc_mutex_init Win32.failingKernel).value = 1 ∧
      (Win32.vlc_mutex_init Win32.failingKernel).value ≠ 0) ∧
    ((Win32.vlc_mutex_lock Win32.failingKernel 8).value = 0 ∧
     (Win32.vlc_mutex_lock Win32.failingKernel 8).trace
       = [Win32.Event.WaitForSingleObject 8 (Win32.failingKernel.WaitForSingleObject 8)]) ∧
    ((Win32.vlc_mutex_unlock Win32.failingKernel 8).value = 0 ∧
     (Win32.vlc_mutex_unlock Win32.failingKernel 8).trace
       = [Win32.Event.ReleaseMutex 8 (Win32.failingKernel.ReleaseMutex 8)]) ∧
    (Win32.vlc_cond_wait Win32.failingKernel 9 8).value = 0 :=
  native_results_checked_or_discarded BeOS.sampleConsts BeOS.failingKernel
    ⟨0, 0⟩ ⟨9999, 7⟩ ⟨9999, -1⟩ Win32.failingKernel 8 9 (by decide) rfl rfl

/-! ## BeOS: `vlc_cond_signal` -/

/-- C5: on an initialised condition variable with an empty waiter slot
(`thread = -1`), `vlc_cond_signal` returns 0 for any supply of
`get_thread_info` answers, makes no kernel call (no `resume_thread`, no
`snooze`) and leaves the condition variable as it was; a later
`vlc_cond_wait` on the resulting state still calls `suspend_thread` on the
calling thread. -/
theorem signal_without_waiter_is_noop (c : BeOS.Consts) (k kw : BeOS.Kernel)
    (answers : List BeOS.ThreadInfo) (m : BeOS.vlc_mutex_t) :
    (BeOS.vlc_cond_signal c k answers (some ⟨9999, -1⟩)).value = some 0 ∧
    (BeOS.vlc_cond_signal c k answers (some ⟨9999, -1⟩)).trace = [] ∧
    (BeOS.vlc_cond_signal c k answers (some ⟨9999, -1⟩)).state = some ⟨9999, -1⟩ ∧
    BeOS.Event.suspend_thread kw.find_thread (kw.suspend_thread kw.find_thread) ∈
      (BeOS.vlc_cond_wait c kw
        (BeOS.vlc_cond_signal c k answers (some ⟨9999, -1⟩)).state (some m)).trace := by
  have hloop : BeOS.signal_loop c k (-1) answers = (some 0, []) := by
    cases answers <;> simp [BeOS.signal_loop]
  simp [BeOS.vlc_cond_signal, BeOS.vlc_cond_wait, hloop]

/-- C7 fails as stated: on BeOS, with an initialised condition variable and
an initialised mutex held by the caller, if the final `acquire_sem` is
interrupted `vlc_cond_wait` still returns 0, and the caller, having released
the semaphore, does not own it. -/
theorem wait_returns_zero_without_the_mutex :
    (BeOS.vlc_cond_wait BeOS.sampleConsts BeOS.interruptedKernel (some ⟨9999, -1⟩)
        (some ⟨9999, 7⟩)).value = 0 ∧
    (BeOS.vlc_cond_wait BeOS.sampleConsts BeOS.interruptedKernel (some ⟨9999, -1⟩)
        (some ⟨9999, 7⟩)).trace
      = [BeOS.Event.find_thread 42, BeOS.Event.release_sem 7 0,
         BeOS.Event.suspend_thread 42 0, BeOS.Event.acquire_sem 7 (-2147483638)] ∧
    BeOS.holdsAfter BeOS.sampleConsts 7 true
      (BeOS.vlc_cond_wait BeOS.sampleConsts BeOS.interruptedKernel (some ⟨9999, -1⟩)
        (some ⟨9999, 7⟩)).trace = false := by
  decide

/-- C7, amended: on an initialised condition variable and an initialised
mutex held by the caller, `vlc_cond_wait` (BeOS and Win32) makes its native
calls in the order release mutex, block, acquire mutex and returns 0 in
every case; on return the caller holds the mutex if the final native acquire
succeeded, and does not hold it if the release succeeded and the acquire
failed. -/
theorem wait_releases_blocks_reacquires (c : BeOS.Consts) (k : BeOS.Kernel)
    (cv : BeOS.vlc_cond_t) (m : BeOS.vlc_mutex_t) (w : Win32.Kernel) (hcond hmutex : Nat)
    (hcv : cv.init = 9999) (hm : m.init = 9999) :
    ((BeOS.vlc_cond_wait c k (some cv) (some m)).value = 0 ∧
     (BeOS.vlc_cond_wait c k (some cv) (some m)).trace
       = [BeOS.Event.find_thread k.find_thread,
          BeOS.Event.release_sem m.lock (k.release_sem m.lock),
          BeOS.Event.suspend_thread k.find_thread (k.suspend_thread k.find_thread),
          BeOS.Event.acquire_sem m.lock (k.acquire_sem m.lock)] ∧
     (k.acquire_sem m.lock = c.B_NO_ERROR →
       BeOS.holdsAfter c m.lock true
         (BeOS.vlc_cond_wait c k (some cv) (some m)).trace = true) ∧
     (k.release_sem m.lock = c.B_NO_ERROR → k.acquire_sem m.lock ≠ c.B_NO_ERROR →
       BeOS.holdsAfter c m.lock true
         (BeOS.vlc_cond_wait c k (some cv) (some m)).trace = false)) ∧
    ((Win32.vlc_cond_wait w hcond hmutex).value = 0 ∧
     (Win32.vlc_cond_wait w hcond hmutex).trace
       = [Win32.Event.ReleaseMutex hmutex (w.ReleaseMutex hmutex),
          Win32.Event.WaitForSingleObject hcond (w.WaitForSingleObject hcond),
          Win32.Event.WaitForSingleObject hmutex (w.WaitForSingleObject hmutex)] ∧
     ((w.WaitForSingleObject hmutex).acquired = true →
       Win32.holdsAfter hmutex true (Win32.vlc_cond_wait w hcond hmutex).trace = true) ∧
     (w.ReleaseMutex hmutex = true → (w.WaitForSingleObject hmutex).acquired = false →
       Win32.holdsAfter hmutex true (Win32.vlc_cond_wait w hcond hmutex).trace = false)) := by
  have hb : (BeOS.vlc_cond_wait c k (some cv) (some m)).trace
       = [BeOS.Event.find_thread k.find_thread,
          BeOS.Event.release_sem m.lock (k.release_sem m.lock),
          BeOS.Event.suspend_thread k.find_thread (k.suspend_thread k.find_thread),
          BeOS.Event.acquire_sem m.lock (k.acquire_sem m.lock)] := by
    simp [BeOS.vlc_cond_wait, BeOS.vlc_mutex_lock, BeOS.vlc_mutex_unlock, hcv, hm]
  have hw : (Win32.vlc_cond_wait w hcond hmutex).trace
       = [Win32.Event.ReleaseMutex hmutex (w.ReleaseMutex hmutex),
          Win32.Event.WaitForSingleObject hcond (w.WaitForSingleObject hcond),
          Win32.Event.WaitForSingleObject hmutex (w.WaitForSingleObject hmutex)] := by
    simp [Win32.vlc_cond_wait, Win32.vlc_mutex_lock, Win32.vlc_mutex_unlock]
  refine ⟨⟨?_, hb, ?_, ?_⟩, ⟨rfl, hw, ?_, ?_⟩⟩
  · simp [BeOS.vlc_cond_wait, hcv]
  · intro ha
    rw [hb]
    simp [BeOS.holdsAfter, ha]
  · intro hr ha
    rw [hb]
    simp [BeOS.holdsAfter, hr, ha]
  · intro ha
    rw [hw]
    simp [Win32.holdsAfter, ha]
  · intro hr ha
    rw [hw]
    by_cases heq : hcond = hmutex
    · subst heq
      simp [Win32.holdsAfter, hr, ha]
    · simp [Win32.holdsAfter, hr, ha, heq]

theorem wait_releases_blocks_reacquires_witness :
    ((⟨9999, -1⟩ : BeOS.vlc_cond_t).init = 9999 ∧ (⟨9999, 7⟩ : BeOS.vlc_mutex_t).init = 9999) ∧
    (BeOS.vlc_cond_wait BeOS.sampleConsts BeOS.sampleKernel (some ⟨9999, -1⟩)
        (some ⟨9999, 7⟩)).trace
      = [BeOS.Event.find_thread 42, BeOS.Event.release_sem 7 0,
         BeOS.Event.suspend_thread 42 0, BeOS.Event.acquire_sem 7 0] ∧
    BeOS.holdsAfter BeOS.sampleConsts 7 true
      (BeOS.vlc_cond_wait BeOS.sampleConsts BeOS.sampleKernel (some ⟨9999, -1⟩)
        (some ⟨9999, 7⟩)).trace = true ∧
    (Win32.vlc_cond_wait Win32.sampleKernel 9 8).trace
      = [Win32.Event.ReleaseMutex 8 true,
         Win32.Event.WaitForSingleObject 9 Win32.WaitResult.object_0,
         Win32.Event.WaitForSingleObject 8 Win32.WaitResult.object_0] ∧
    Win32.holdsAfter 8 true (Win32.vlc_cond_wait Win32.sampleKernel 9 8).trace = true :=
  ⟨⟨rfl, rfl⟩,
   (wait_releases_blocks_reacquires BeOS.sampleConsts BeOS.sampleKernel ⟨9999, -1⟩ ⟨9999, 7⟩
      Win32.sampleKernel 9 8 rfl rfl).1.2.1,
   (wait_releases_blocks_reacquires BeOS.sampleConsts BeOS.sampleKernel ⟨9999, -1⟩ ⟨9999, 7⟩
      Win32.sampleKernel 9 8 rfl rfl).1.2.2.1 rfl,
   (wait_releases_blocks_reacquires BeOS.sampleConsts BeOS.sampleKernel ⟨9999, -1⟩ ⟨9999, 7⟩
      Win32.sampleKernel 9 8 rfl rfl).2.2.1,
   (wait_releases_blocks_reacquires BeOS.sampleConsts BeOS.sampleKernel ⟨9999, -1⟩ ⟨9999, 7⟩
      Win32.sampleKernel 9 8 rfl rfl).2.2.2.1 rfl⟩

/-! ## BeOS: destruction -/

/-- C10: for every mutex, `vlc_mutex_destroy` returns `B_OK`, sets the init
marker to 0 and keeps the `lock` field, and calls `delete_sem` (on that
field, once) exactly when the marker was 9999; on the destroyed mutex
`vlc_mutex_lock` and `vlc_mutex_unlock` return `B_NO_INIT` without a kernel
call, and `vlc_mutex_init` goes on to `create_sem`, does not return
`EALREADY`, and succeeds with the marker back at 9999 when `create_sem`
does.  Likewise `vlc_cond_destroy` returns 0 and sets the marker to 0, after
which `vlc_cond_signal` and `vlc_cond_wait` return `B_NO_INIT` without a
kernel call and `vlc_cond_init` returns 0, not `EALREADY`, with the marker
at 9999 and an empty waiter slot.  `EALREADY` is taken to differ from 0, -1
and `B_OK`. -/
theorem destroy_returns_handle_to_uninitialised (c : BeOS.Consts) (k : BeOS.Kernel)
    (answers : List BeOS.ThreadInfo) (m mx : BeOS.vlc_mutex_t) (cv : BeOS.vlc_cond_t)
    (h0 : c.EALREADY ≠ 0) (h1 : c.EALREADY ≠ -1) (hok : c.EALREADY ≠ c.B_OK) :
    ((BeOS.vlc_mutex_destroy c m).value = c.B_OK ∧
     (BeOS.vlc_mutex_destroy c m).state = ⟨0, m.lock⟩ ∧
     (m.init = 9999 → (BeOS.vlc_mutex_destroy c m).trace = [BeOS.Event.delete_sem m.lock]) ∧
     (m.init ≠ 9999 → (BeOS.vlc_mutex_destroy c m).trace = [])) ∧
    ((BeOS.vlc_mutex_lock c k (some (BeOS.vlc_mutex_destroy c m).state)).value = c.B_NO_INIT ∧
     (BeOS.vlc_mutex_lock c k (some (BeOS.vlc_mutex_destroy c m).state)).trace = [] ∧
     (BeOS.vlc_mutex_unlock c k (some (BeOS.vlc_mutex_destroy c m).state)).value = c.B_NO_INIT ∧
     (BeOS.vlc_mutex_unlock c k (some (BeOS.vlc_mutex_destroy c m).state)).trace = []) ∧
    ((BeOS.vlc_mutex_init c k (some (BeOS.vlc_mutex_destroy c m).state)).value ≠ c.EALREADY ∧
     (BeOS.vlc_mutex_init c k (some (BeOS.vlc_mutex_destroy c m).state)).trace
       = [BeOS.Event.create_sem 1 k.create_sem] ∧
     (¬ k.create_sem < c.B_NO_ERROR →
       (BeOS.vlc_mutex_init c k (some (BeOS.vlc_mutex_destroy c m).state)).value = c.B_OK ∧
       (BeOS.vlc_mutex_init c k (some (BeOS.vlc_mutex_destroy c m).state)).state
         = some ⟨9999, k.create_sem⟩)) ∧
    ((BeOS.vlc_cond_destroy cv).value = 0 ∧
     (BeOS.vlc_cond_destroy cv).state = ⟨0, cv.thread⟩ ∧
     (BeOS.vlc_cond_destroy cv).trace = []) ∧
    ((BeOS.vlc_cond_signal c k answers (some (BeOS.vlc_cond_destroy cv).state)).value
       = some c.B_NO_INIT ∧
     (BeOS.vlc_cond_signal c k answers (some (BeOS.vlc_cond_destroy cv).state)).trace = [] ∧
     (BeOS.vlc_cond_wait c k (some (BeOS.vlc_cond_destroy cv).state) (some mx)).value
       = c.B_NO_INIT ∧
     (BeOS.vlc_cond_wait c k (some (BeOS.vlc_cond_destroy cv).state) (some mx)).trace = []) ∧
    ((BeOS.vlc_cond_init c (some (BeOS.vlc_cond_destroy cv).state)).value = 0 ∧
     (BeOS.vlc_cond_init c (some (BeOS.vlc_cond_destroy cv).state)).value ≠ c.EALREADY ∧
     (BeOS.vlc_cond_init c (some (BeOS.vlc_cond_destroy cv).state)).state
       = some ⟨9999, -1⟩) := by
  refine ⟨⟨rfl, rfl, ?_, ?_⟩, ?_, ⟨?_, ?_, ?_⟩, ⟨rfl, rfl, rfl⟩, ?_, ?_⟩
  · intro h
    simp [BeOS.vlc_mutex_destroy, h]
  · intro h
    simp [BeOS.vlc_mutex_destroy, h]
  · simp [BeOS.vlc_mutex_destroy, BeOS.vlc_mutex_lock, BeOS.vlc_mutex_unlock]
  · by_cases hs : k.create_sem < c.B_NO_ERROR
    · simpa [BeOS.vlc_mutex_destroy, BeOS.vlc_mutex_init, hs] using Ne.symm h1
    · simpa [BeOS.vlc_mutex_destroy, BeOS.vlc_mutex_init, hs] using Ne.symm hok
  · by_cases hs : k.create_sem < c.B_NO_ERROR <;>
      simp [BeOS.vlc_mutex_destroy, BeOS.vlc_mutex_init, hs]
  · intro hs
    simp [BeOS.vlc_mutex_destroy, BeOS.vlc_mutex_init, hs]
  · simp [BeOS.vlc_cond_destroy, BeOS.vlc_cond_signal, BeOS.vlc_cond_wait]
  · simpa [BeOS.vlc_cond_destroy, BeOS.vlc_cond_init] using Ne.symm h0

theorem destroy_returns_handle_to_uninitialised_witness :
    (BeOS.sampleConsts.EALREADY ≠ 0 ∧ BeOS.sampleConsts.EALREADY ≠ -1 ∧
      BeOS.sampleConsts.EALREADY ≠ BeOS.sampleConsts.B_OK) ∧
    (BeOS.vlc_mutex_destroy BeOS.sampleConsts ⟨9999, 7⟩).trace = [BeOS.Event.delete_sem 7] ∧
    (BeOS.vlc_mutex_lock BeOS.sampleConsts BeOS.sampleKernel
        (some (BeOS.vlc_mutex_destroy BeOS.sampleConsts ⟨9999, 7⟩).state)).value
      = BeOS.sampleConsts.B_NO_INIT ∧
    (BeOS.vlc_mutex_init BeOS.sampleConsts BeOS.sampleKernel
        (some (BeOS.vlc_mutex_destroy BeOS.sampleConsts ⟨9999, 7⟩).state)).value
      ≠ BeOS.sampleConsts.EALREADY ∧
    (BeOS.vlc_cond_init BeOS.sampleConsts
        (some (BeOS.vlc_cond_destroy ⟨9999, 42⟩).state)).state = some ⟨9999, -1⟩ :=
  ⟨⟨by decide, by decide, by decide⟩,
   (destroy_returns_handle_to_uninitialised BeOS.sampleConsts BeOS.sampleKernel [⟨0, 5⟩]
      ⟨9999, 7⟩ ⟨9999, 7⟩ ⟨9999, 42⟩ (by decide) (by decide) (by decide)).1.2.2.1 rfl,
   (destroy_returns_handle_to_uninitialised BeOS.sampleConsts BeOS.sampleKernel [⟨0, 5⟩]
      ⟨9999, 7⟩ ⟨9999, 7⟩ ⟨9999, 42⟩ (by decide) (by decide) (by decide)).2.1.1,
   (destroy_returns_handle_to_uninitialised BeOS.sampleConsts BeOS.sampleKernel [⟨0, 5⟩]
      ⟨9999, 7⟩ ⟨9999, 7⟩ ⟨9999, 42⟩ (by decide) (by decide) (by decide)).2.2.1.1,
   (destroy_returns_handle_to_uninitialised BeOS.sampleConsts BeOS.sampleKernel [⟨0, 5⟩]
      ⟨9999, 7⟩ ⟨9999, 7⟩ ⟨9999, 42⟩ (by decide) (by decide) (by decide)).2.2.2.2.2.2.2⟩

end Threads
